import Mathlib

set_option autoImplicit false

namespace HoneybeeLive

/- ================================================================
   Data model, shallow embedding of src/App.tsx
   ================================================================ -/

/-- Embeds the HiveData interface (src/App.tsx lines 29-35): one sensor
sample. The source stores a locale-formatted time label derived from a
Date instant; we keep the underlying instant in milliseconds (timeMs),
since the formatting is presentation-only. Metric floats are embedded as
rationals. -/
structure HiveData where
  timeMs : ℤ
  temp : ℚ
  humidity : ℚ
  weight : ℚ
  activity : ℤ
deriving DecidableEq

/-- One draw of the four Math.random() calls used to build a sample
(src/App.tsx lines 50-53 and 75-78). -/
structure RandDraw where
  rTemp : ℚ
  rHumidity : ℚ
  rWeight : ℚ
  rActivity : ℚ
deriving DecidableEq

/-- All four draws lie in the range [0, 1) of Math.random(). -/
def RandDraw.inRange01 (r : RandDraw) : Prop :=
  (0 ≤ r.rTemp ∧ r.rTemp < 1) ∧ (0 ≤ r.rHumidity ∧ r.rHumidity < 1) ∧
    (0 ≤ r.rWeight ∧ r.rWeight < 1) ∧ (0 ≤ r.rActivity ∧ r.rActivity < 1)

instance (r : RandDraw) : Decidable r.inRange01 :=
  inferInstanceAs (Decidable ((0 ≤ r.rTemp ∧ r.rTemp < 1) ∧
    (0 ≤ r.rHumidity ∧ r.rHumidity < 1) ∧
    (0 ≤ r.rWeight ∧ r.rWeight < 1) ∧ (0 ≤ r.rActivity ∧ r.rActivity < 1)))

/-- One sample as pushed by generateMockData (src/App.tsx lines 48-54):
temp = 34 + r*2, humidity = 50 + r*10, weight = 45 + r*0.5,
activity = Math.floor(70 + r*30). -/
def mkInitSample (t : ℤ) (r : RandDraw) : HiveData :=
  { timeMs := t
    temp := 34 + r.rTemp * 2
    humidity := 50 + r.rHumidity * 10
    weight := 45 + r.rWeight * 0.5
    activity := ⌊(70 : ℚ) + r.rActivity * 30⌋ }

/-- One sample as built in the interval effect (src/App.tsx lines 73-79):
same rules as mkInitSample except weight = 45 + r*0.2. -/
def mkTickSample (t : ℤ) (r : RandDraw) : HiveData :=
  { timeMs := t
    temp := 34 + r.rTemp * 2
    humidity := 50 + r.rHumidity * 10
    weight := 45 + r.rWeight * 0.2
    activity := ⌊(70 : ℚ) + r.rActivity * 30⌋ }

/-- Embeds generateMockData (src/App.tsx lines 43-57): the loop runs i from
12 down to 0, pushing a sample at now - i*3600000 ms; so the k-th pushed
sample (k = 0..12) carries instant now - (12 - k)*3600000. rnd k gives the
random draws consumed by the k-th pushed sample. -/
def generateMockData (now : ℤ) (rnd : ℕ → RandDraw) : List HiveData :=
  (List.range 13).map (fun (k : ℕ) => mkInitSample (now - (12 - (k : ℤ)) * 3600000) (rnd k))

/-- Embeds the setHiveHistory updater in the interval effect (src/App.tsx
lines 72-81): prev becomes [...prev.slice(1), newData]. -/
def tick (prev : List HiveData) (now : ℤ) (r : RandDraw) : List HiveData :=
  prev.drop 1 ++ [mkTickSample now r]

/-- Feed state reached after initialization and a finite sequence of interval
firings, each with its own current time and random draws. -/
def feedAfter (now0 : ℤ) (rnd : ℕ → RandDraw) (ticks : List (ℤ × RandDraw)) : List HiveData :=
  ticks.foldl (fun h tr => tick h tr.1 tr.2) (generateMockData now0 rnd)

/-- Embeds currentStatus = hiveHistory[hiveHistory.length - 1] (src/App.tsx
line 86); JS out-of-bounds indexing yields undefined, embedded as Option. -/
def currentStatus (hist : List HiveData) : Option HiveData :=
  hist[hist.length - 1]?

/- ================================================================
   Chat session, shallow embedding of the chat state and
   handleSendMessage (src/App.tsx lines 63-67 and 88-118)
   ================================================================ -/

/-- Message roles (src/App.tsx lines 37-40). -/
inductive Role where
  | user
  | bee
deriving DecidableEq

/-- One chat turn (src/App.tsx lines 37-40). -/
structure Message where
  role : Role
  text : String
deriving DecidableEq

/-- Embeds the JS String.prototype.trim() used at src/App.tsx line 89:
strips leading and trailing whitespace. -/
def jsTrim (s : String) : String :=
  ⟨((s.data.dropWhile Char.isWhitespace).reverse.dropWhile Char.isWhitespace).reverse⟩

/-- The chat-related component state (src/App.tsx lines 63-67): the message
transcript, the controlled input value, and the isTyping (pending) flag. -/
structure ChatState where
  messages : List Message
  inputValue : String
  isTyping : Bool
deriving DecidableEq

/-- The seeded greeting (src/App.tsx line 64). -/
def initialGreeting : Message :=
  ⟨Role.bee, "Bzzzt! Hello Beekeeper! I\x27m Honey, your hive assistant. How can I help you today?"⟩

/-- Initial chat state (src/App.tsx lines 63-67). -/
def initialChatState : ChatState :=
  { messages := [initialGreeting], inputValue := "", isTyping := false }

/-- The data of one responder request (src/App.tsx lines 97-109): the prompt
interpolates the user text and the current sample's temp, humidity and
activity; only these four data-plane inputs are load-bearing, so the request
is embedded as the tuple of them. -/
structure Request where
  userText : String
  ctxTemp : ℚ
  ctxHumidity : ℚ
  ctxActivity : ℤ
deriving DecidableEq

/-- Synchronous phase of handleSendMessage (src/App.tsx lines 88-94, plus
the request dispatch of lines 96-109): the only guard is on the trimmed
input value (line 89) — there is no isTyping guard in the function itself.
On the non-empty branch it appends a user Message carrying the raw (not
trimmed) inputValue, clears inputValue, sets isTyping, and dispatches one
request built from the raw text and the context sample (the shell passes
currentStatus, the latest sample). Returns the new state and the dispatched
request, if any. -/
def handleSendMessageSync (s : ChatState) (ctx : HiveData) : ChatState × Option Request :=
  if jsTrim s.inputValue = "" then (s, none)
  else
    ({ messages := s.messages ++ [⟨Role.user, s.inputValue⟩]
       inputValue := ""
       isTyping := true },
     some ⟨s.inputValue, ctx.temp, ctx.humidity, ctx.activity⟩)

/-- Outcome of the awaited responder call: it resolves with text (possibly
empty; an undefined response.text behaves like the empty string under the
falsy test on line 111) or it rejects / throws. -/
inductive ResponderOutcome where
  | resolved (text : String)
  | rejected

/-- Fallback used when the responder resolves with an empty (falsy) text
(src/App.tsx line 111). -/
def emptyFallback : String :=
  "Bzzzt... I\x27m having trouble connecting to the hive mind. Try again?"

/-- Fallback used when the responder rejects or anything in the try block
throws (src/App.tsx line 114). -/
def failureFallback : String :=
  "Bzzzt... My wings are tired. Please check your connection!"

/-- Completion phase of handleSendMessage (src/App.tsx lines 111-117): on
resolve, reply = response.text || emptyFallback is appended as a bee
Message; on reject, failureFallback is appended; the finally block clears
isTyping on every path, and no error escapes the function. -/
def handleSendMessageResolve (s : ChatState) (o : ResponderOutcome) : ChatState :=
  match o with
  | .resolved t =>
      { s with
        messages := s.messages ++ [⟨Role.bee, if t = "" then emptyFallback else t⟩]
        isTyping := false }
  | .rejected =>
      { s with
        messages := s.messages ++ [⟨Role.bee, failureFallback⟩]
        isTyping := false }

/- ================================================================
   Concrete states used by witnesses and counterexamples
   ================================================================ -/

/-- A concrete sample for witness instantiations. -/
def sample0 : HiveData := ⟨0, 34, 50, 45, 70⟩

/-- A concrete random draw for witness instantiations. -/
def draw0 : RandDraw := ⟨0, 0, 0, 0⟩

/-- A chat state with a request pending and non-empty input. -/
def pendingState : ChatState :=
  { messages := [initialGreeting], inputValue := "hello", isTyping := true }

/-- An idle chat state whose input has surrounding whitespace. -/
def rawInputState : ChatState :=
  { messages := [initialGreeting], inputValue := " hi ", isTyping := false }

/-- An idle chat state whose input is whitespace-only. -/
def blankInputState : ChatState :=
  { messages := [initialGreeting], inputValue := "   ", isTyping := false }

/-- An awaiting-reply chat state with cleared input. -/
def chatBase : ChatState :=
  { messages := [initialGreeting], inputValue := "", isTyping := true }

/- ================================================================
   Helper lemmas
   ================================================================ -/

lemma sendSync_noop_of_trim_empty (s : ChatState) (ctx : HiveData)
    (h : jsTrim s.inputValue = "") :
    handleSendMessageSync s ctx = (s, none) := by
  simp [handleSendMessageSync, h]

lemma sendSync_of_valid (s : ChatState) (ctx : HiveData)
    (h : jsTrim s.inputValue ≠ "") :
    handleSendMessageSync s ctx =
      ({ messages := s.messages ++ [⟨Role.user, s.inputValue⟩]
         inputValue := ""
         isTyping := true },
       some ⟨s.inputValue, ctx.temp, ctx.humidity, ctx.activity⟩) := by
  simp [handleSendMessageSync, h]

lemma generateMockData_length (now : ℤ) (rnd : ℕ → RandDraw) :
    (generateMockData now rnd).length = 13 := by
  simp [generateMockData]

lemma generateMockData_getElem (now : ℤ) (rnd : ℕ → RandDraw) (k : ℕ) (hk : k < 13) :
    (generateMockData now rnd)[k]? =
      some (mkInitSample (now - (12 - (k : ℤ)) * 3600000) (rnd k)) := by
  simp [generateMockData, List.getElem?_map, List.getElem?_range, hk]

lemma foldl_tick_length (ticks : List (ℤ × RandDraw)) :
    ∀ l : List HiveData, l.length = 13 →
      (ticks.foldl (fun h tr => tick h tr.1 tr.2) l).length = 13 := by
  induction ticks with
  | nil => intro l hl; simpa using hl
  | cons hd tl ih =>
      intro l hl
      simp only [List.foldl_cons]
      apply ih
      simp only [tick, List.length_append, List.length_drop, List.length_singleton]
      omega

lemma feedAfter_length (now0 : ℤ) (rnd : ℕ → RandDraw) (ticks : List (ℤ × RandDraw)) :
    (feedAfter now0 rnd ticks).length = 13 :=
  foldl_tick_length ticks _ (generateMockData_length now0 rnd)

/- ================================================================
   Claim theorems: chat session
   ================================================================ -/

/-- Claim C1: the spec says a send while pending is a no-op, but the code
violates it. With a request pending (isTyping = true) and non-empty input,
handleSendMessage still appends a user Message and dispatches a second
request: its only guard (src/App.tsx line 89) tests the trimmed input, and
the Enter-key path (line 307) calls it without the isTyping check that only
disables the button (line 313). This theorem evaluates the embedded code at
the failing input. -/
theorem c1_send_while_pending_not_noop :
    pendingState.isTyping = true ∧
    (handleSendMessageSync pendingState sample0).1.messages =
      [initialGreeting, ⟨Role.user, "hello"⟩] ∧
    (handleSendMessageSync pendingState sample0).1.isTyping = true ∧
    (handleSendMessageSync pendingState sample0).2 =
      some ⟨"hello", 34, 50, 70⟩ := by
  decide

/-- Claim C2: every terminal outcome of a dispatched request clears the
pending flag and appends exactly one assistant Message: a non-empty resolved
text is appended verbatim; an empty resolved text is replaced by the fixed
empty fallback; a rejection appends the fixed failure fallback; and the two
fallback texts are distinct. -/
theorem c2_resolution_outcomes (s : ChatState) (t : String) (ht : t ≠ "") :
    ((handleSendMessageResolve s (.resolved t)).messages =
        s.messages ++ [⟨Role.bee, t⟩] ∧
      (handleSendMessageResolve s (.resolved t)).isTyping = false) ∧
    ((handleSendMessageResolve s (.resolved (""))).messages =
        s.messages ++ [⟨Role.bee, emptyFallback⟩] ∧
      (handleSendMessageResolve s (.resolved (""))).isTyping = false) ∧
    ((handleSendMessageResolve s .rejected).messages =
        s.messages ++ [⟨Role.bee, failureFallback⟩] ∧
      (handleSendMessageResolve s .rejected).isTyping = false) ∧
    emptyFallback ≠ failureFallback := by
  refine ⟨⟨?_, rfl⟩, ⟨?_, rfl⟩, ⟨rfl, rfl⟩, by decide⟩
  · simp [handleSendMessageResolve, ht]
  · simp [handleSendMessageResolve]

/-- Claim C2 witness: the theorem applied to a concrete awaiting-reply state
and a concrete non-empty reply. -/
theorem c2_resolution_outcomes_witness :
    (handleSendMessageResolve chatBase (.resolved ("All good, bzzt."))).messages =
      chatBase.messages ++ [⟨Role.bee, "All good, bzzt."⟩] ∧
    (handleSendMessageResolve chatBase (.resolved ("All good, bzzt."))).isTyping = false :=
  (c2_resolution_outcomes chatBase ("All good, bzzt.") (by decide)).1

/-- Claim C3 counterexample: the claim says a valid send appends a user
Message carrying the trimmed text and invokes the responder with the trimmed
text; the code uses the raw inputValue for both (src/App.tsx lines 91-92 and
105). At input value " hi " (trimmed: "hi", non-empty, pending false) the
appended text and the dispatched user text are the raw " hi ", which differs
from the trimmed "hi". -/
theorem c3_counterexample_raw_text :
    rawInputState.isTyping = false ∧
    jsTrim (" hi ") = "hi" ∧
    (handleSendMessageSync rawInputState sample0).1.messages =
      [initialGreeting, ⟨Role.user, " hi "⟩] ∧
    (handleSendMessageSync rawInputState sample0).2 =
      some ⟨" hi ", 34, 50, 70⟩ ∧
    (" hi " : String) ≠ "hi" := by
  decide

/-- Claim C3 (amended): for every valid send (trimmed text non-empty, pending
false), a user Message carrying the raw (untrimmed) input text is appended
synchronously before any responder invocation, pending is set to true, and
the responder is invoked with the raw text plus the context sample's
temperature, humidity and activity (the shell passes currentStatus, the
latest sample, as that context). -/
theorem c3_amended_send_behavior (s : ChatState) (ctx : HiveData)
    (_hp : s.isTyping = false) (hne : jsTrim s.inputValue ≠ "") :
    (handleSendMessageSync s ctx).1.messages =
      s.messages ++ [⟨Role.user, s.inputValue⟩] ∧
    (handleSendMessageSync s ctx).1.isTyping = true ∧
    (handleSendMessageSync s ctx).2 =
      some ⟨s.inputValue, ctx.temp, ctx.humidity, ctx.activity⟩ := by
  rw [sendSync_of_valid s ctx hne]
  exact ⟨rfl, rfl, rfl⟩

/-- Claim C3 witness: the amended theorem applied to a concrete idle state
with input " hi " and a concrete context sample. -/
theorem c3_amended_send_behavior_witness :
    (handleSendMessageSync rawInputState sample0).1.isTyping = true ∧
    (handleSendMessageSync rawInputState sample0).2 =
      some ⟨rawInputState.inputValue, sample0.temp, sample0.humidity, sample0.activity⟩ :=
  ⟨(c3_amended_send_behavior rawInputState sample0 rfl (by decide)).2.1,
   (c3_amended_send_behavior rawInputState sample0 rfl (by decide)).2.2⟩

/-- Claim C7: a send whose trimmed input is empty (empty string or
whitespace-only) is a no-op: the state (transcript, input value, pending
flag) is returned unchanged and no request is dispatched. -/
theorem c7_blank_send_noop (s : ChatState) (ctx : HiveData)
    (h : jsTrim s.inputValue = "") :
    handleSendMessageSync s ctx = (s, none) :=
  sendSync_noop_of_trim_empty s ctx h

/-- Claim C7 witness: the theorem applied to a concrete state whose input is
three spaces. -/
theorem c7_blank_send_noop_witness :
    handleSendMessageSync blankInputState sample0 = (blankInputState, none) :=
  c7_blank_send_noop blankInputState sample0 (by decide)

/-- Claim C10: every valid send clears the input value to the empty string
in its synchronous phase, so an immediately repeated send on the resulting
state is rejected by the empty-input guard: it is a no-op and dispatches no
request. -/
theorem c10_input_cleared (s : ChatState) (ctx ctx2 : HiveData)
    (h : jsTrim s.inputValue ≠ "") :
    (handleSendMessageSync s ctx).1.inputValue = "" ∧
    handleSendMessageSync (handleSendMessageSync s ctx).1 ctx2 =
      ((handleSendMessageSync s ctx).1, none) := by
  rw [sendSync_of_valid s ctx h]
  exact ⟨rfl, sendSync_noop_of_trim_empty _ ctx2 rfl⟩

/-- Claim C10 witness: the theorem applied to a concrete idle state with
input " hi ". -/
theorem c10_input_cleared_witness :
    (handleSendMessageSync rawInputState sample0).1.inputValue = "" ∧
    handleSendMessageSync (handleSendMessageSync rawInputState sample0).1 sample0 =
      ((handleSendMessageSync rawInputState sample0).1, none) :=
  c10_input_cleared rawInputState sample0 sample0 (by decide)

/- ================================================================
   Claim theorems: time-series feed
   ================================================================ -/

/-- Claim C4: after initialization with capacity 13, any number of ticks
leaves the window length at exactly 13, and each further tick is exactly
append-one-at-the-end plus evict-the-single-oldest. -/
theorem c4_tick_preserves_length (now0 : ℤ) (rnd : ℕ → RandDraw)
    (ticks : List (ℤ × RandDraw)) (t : ℤ) (r : RandDraw) :
    (feedAfter now0 rnd ticks).length = 13 ∧
    feedAfter now0 rnd (ticks ++ [(t, r)]) =
      (feedAfter now0 rnd ticks).drop 1 ++ [mkTickSample t r] ∧
    (feedAfter now0 rnd (ticks ++ [(t, r)])).length = 13 := by
  refine ⟨feedAfter_length now0 rnd ticks, ?_, feedAfter_length now0 rnd (ticks ++ [(t, r)])⟩
  simp [feedAfter, List.foldl_append, tick]

/-- Claim C5: with all four random draws in [0, 1), the generated metrics lie
in the specified half-open ranges: temp in [34, 36), humidity in [50, 60),
activity an integer in [70, 100); weight in [45, 45.5) at initialization but
in the narrower [45, 45.2) at tick; temp, humidity and activity follow the
same rule at init and at tick. -/
theorem c5_metric_ranges (t : ℤ) (r : RandDraw) (hr : r.inRange01) :
    (34 ≤ (mkInitSample t r).temp ∧ (mkInitSample t r).temp < 36) ∧
    (50 ≤ (mkInitSample t r).humidity ∧ (mkInitSample t r).humidity < 60) ∧
    (45 ≤ (mkInitSample t r).weight ∧ (mkInitSample t r).weight < 45.5) ∧
    (70 ≤ (mkInitSample t r).activity ∧ (mkInitSample t r).activity < 100) ∧
    (45 ≤ (mkTickSample t r).weight ∧ (mkTickSample t r).weight < 45.2) ∧
    (mkTickSample t r).temp = (mkInitSample t r).temp ∧
    (mkTickSample t r).humidity = (mkInitSample t r).humidity ∧
    (mkTickSample t r).activity = (mkInitSample t r).activity := by
  obtain ⟨⟨ht0, ht1⟩, ⟨hh0, hh1⟩, ⟨hw0, hw1⟩, ⟨ha0, ha1⟩⟩ := hr
  simp only [mkInitSample, mkTickSample]
  refine ⟨⟨by linarith, by linarith⟩, ⟨by linarith, by linarith⟩,
    ⟨by linarith, by nlinarith⟩, ⟨?_, ?_⟩, ⟨by linarith, by nlinarith⟩,
    trivial, trivial, trivial⟩
  · rw [Int.le_floor]
    push_cast
    linarith
  · rw [Int.floor_lt]
    push_cast
    linarith

/-- Claim C5 witness: the theorem applied to the draw with all four
components zero, which lies in [0, 1). -/
theorem c5_metric_ranges_witness :
    RandDraw.inRange01 draw0 ∧
    (45 ≤ (mkInitSample 0 draw0).weight ∧ (mkInitSample 0 draw0).weight < 45.5) ∧
    (70 ≤ (mkInitSample 0 draw0).activity ∧ (mkInitSample 0 draw0).activity < 100) :=
  ⟨by decide, (c5_metric_ranges 0 draw0 (by decide)).2.2.1,
    (c5_metric_ranges 0 draw0 (by decide)).2.2.2.1⟩

/-- Claim C6: after initialization, the window has exactly 13 samples; the
k-th sample (k = 0..12) carries instant now - (12 - k) hours, so consecutive
samples are spaced 3600000 ms apart, the last instant is exactly now, and
the window is strictly ordered oldest to newest. -/
theorem c6_init_window (now : ℤ) (rnd : ℕ → RandDraw) :
    (generateMockData now rnd).length = 13 ∧
    (∀ k : ℕ, k < 13 →
      ((generateMockData now rnd)[k]?).map HiveData.timeMs =
        some (now - (12 - (k : ℤ)) * 3600000)) ∧
    ((generateMockData now rnd).getLast?).map HiveData.timeMs = some now ∧
    (∀ j k : ℕ, j < k → k < 13 → ∀ a b,
      (generateMockData now rnd)[j]? = some a →
      (generateMockData now rnd)[k]? = some b → a.timeMs < b.timeMs) := by
  refine ⟨generateMockData_length now rnd, ?_, ?_, ?_⟩
  · intro k hk
    rw [generateMockData_getElem now rnd k hk]
    rfl
  · rw [List.getLast?_eq_getElem?, generateMockData_length now rnd]
    rw [show (13 - 1 : ℕ) = 12 from rfl, generateMockData_getElem now rnd 12 (by norm_num)]
    simp [mkInitSample]
  · intro j k hjk hk a b ha hb
    rw [generateMockData_getElem now rnd j (lt_trans hjk hk)] at ha
    rw [generateMockData_getElem now rnd k hk] at hb
    obtain rfl := Option.some_injective _ ha
    obtain rfl := Option.some_injective _ hb
    simp only [mkInitSample]
    omega

/-- Claim C6 witness: the theorem applied at now = 0 with all-zero draws,
reading the oldest sample's instant. -/
theorem c6_init_window_witness :
    ((generateMockData 0 (fun _ => draw0))[0]?).map HiveData.timeMs =
      some (0 - (12 - (0 : ℤ)) * 3600000) :=
  (c6_init_window 0 (fun _ => draw0)).2.1 0 (by decide)

/-- Claim C8: in every reachable feed state after initialization (any number
of ticks), currentStatus equals the last element of the window, and it is
present (the window is never empty). -/
theorem c8_latest_eq_last (now0 : ℤ) (rnd : ℕ → RandDraw)
    (ticks : List (ℤ × RandDraw)) :
    currentStatus (feedAfter now0 rnd ticks) = (feedAfter now0 rnd ticks).getLast? ∧
    (currentStatus (feedAfter now0 rnd ticks)).isSome = true := by
  constructor
  · rw [currentStatus, List.getLast?_eq_getElem?]
  · rw [currentStatus]
    have hl := feedAfter_length now0 rnd ticks
    have hlt : (feedAfter now0 rnd ticks).length - 1 < (feedAfter now0 rnd ticks).length := by
      omega
    simp [List.getElem?_eq_getElem hlt]

/-- Claim C9: one tick on a window of length 13 leaves the 12 surviving
samples unchanged and in the same relative order (element i of the new
window equals element i+1 of the old one, for i = 0..11), places the single
new sample at index 12, and keeps the length at 13; no existing sample is
modified. -/
theorem c9_tick_frame (h : List HiveData) (t : ℤ) (r : RandDraw)
    (hlen : h.length = 13) :
    (∀ i, i < 12 → (tick h t r)[i]? = h[i + 1]?) ∧
    (tick h t r)[12]? = some (mkTickSample t r) ∧
    (tick h t r).length = 13 := by
  have hdl : (h.drop 1).length = 12 := by rw [List.length_drop, hlen]
  refine ⟨?_, ?_, ?_⟩
  · intro i hi
    rw [tick, List.getElem?_append_left (by omega : i < (h.drop 1).length),
      List.getElem?_drop, Nat.add_comm]
  · rw [tick, show (12 : ℕ) = (h.drop 1).length from hdl.symm]
    exact List.getElem?_concat_length _ _
  · simp only [tick, List.length_append, List.length_drop, List.length_singleton]
    omega

/-- Claim C9 witness: the theorem applied to a concrete window of 13 copies
of a fixed sample. -/
theorem c9_tick_frame_witness :
    (tick (List.replicate 13 sample0) 0 draw0)[12]? = some (mkTickSample 0 draw0) ∧
    (tick (List.replicate 13 sample0) 0 draw0).length = 13 :=
  ⟨(c9_tick_frame (List.replicate 13 sample0) 0 draw0 (by simp)).2.1,
   (c9_tick_frame (List.replicate 13 sample0) 0 draw0 (by simp)).2.2⟩

end HoneybeeLive
